import Mathlib

/-!
Shallow embedding of the blog synchronization / CRUD layer of `src/app.js`
(the `App` React component of the portfolio site).

The embedding models:
* the documents fetched from the store (`Post`, with optional `author` and
  `timestamp` fields, since a fetched document need not carry them);
* the component's state variables that the blog logic reads and writes
  (`AppState`: `posts`, `newPost`, `editingPost`, `showDeleteModal`,
  `postToDelete`, `isAuthReady`, `userId`, plus the `console.error` log);
* the `onSnapshot` success handler (build the list in emission order, then
  `fetchedPosts.sort((a, b) => (b.timestamp || 0) - (a.timestamp || 0))`,
  a stable sort per the ECMAScript specification, embedded as
  `List.mergeSort`) and the `onSnapshot` error handler (a `console.error`
  only);
* `createPost`, `updatePost`, `deletePost`, each parametrised by whether the
  awaited store call resolves or rejects (`storeOk`), returning the new
  state, the write issued to the store (if any), and the outcome;
* the guard of the subscription `useEffect`
  (`if (isAuthReady && userId && db)`), and the `onAuthStateChanged`
  handler.

Timestamps (`Date.now()` values) are embedded as `Int`.
-/

namespace App

/-- A blog-post document as delivered by the store: `{ id: doc.id, ...doc.data() }`.
`author` and `timestamp` are optional because `doc.data()` need not contain
them; `title`/`content` default to the empty string for the same reason
(only `timestamp` is read by the sort, and `title`/`content` by rendering). -/
structure Post where
  id : String
  title : String := ""
  content : String := ""
  author : Option String := none
  timestamp : Option Int := none
  deriving Repr, DecidableEq

/-- The draft state `newPost` / the `title`,`content` fields of `editingPost`. -/
structure Draft where
  title : String
  content : String
  deriving Repr, DecidableEq

/-- The fields written by `addDoc` in `createPost`:
`{ title, content, author: 'Murad Amin', timestamp: Date.now() }`. -/
structure NewDocFields where
  title : String
  content : String
  author : String
  timestamp : Int
  deriving Repr, DecidableEq

/-- The fields written by `updateDoc` in `updatePost`: `{ title, content }`. -/
structure UpdateFields where
  title : String
  content : String
  deriving Repr, DecidableEq

/-- Outcome of a mutation as observable by the caller. -/
inductive MutationResult where
  | validationError
  | success
  | storeError
  deriving Repr, DecidableEq

/-- The component state variables involved in the blog logic, plus the
`console.error` log (most recent message first). -/
structure AppState where
  posts : List Post
  newPost : Draft
  editingPost : Option Post
  showDeleteModal : Bool
  postToDelete : Option Post
  isAuthReady : Bool
  userId : Option String
  errorLog : List String
  deriving Repr, DecidableEq

/-- The initial component state (`useState` initialisers). -/
def initialState : AppState :=
  { posts := []
    newPost := { title := "", content := "" }
    editingPost := none
    showDeleteModal := false
    postToDelete := none
    isAuthReady := false
    userId := none
    errorLog := [] }

/-- JavaScript truthiness of a string: falsy exactly on the empty string. -/
def strTruthy (s : String) : Bool := s ≠ ""

/-- The sort key `p.timestamp || 0`: a missing (`undefined`) `timestamp`
coerces to `0` (and a literal `0` stays `0`). -/
def postKey (p : Post) : Int := p.timestamp.getD 0

/-- The order induced by the comparator `(b.timestamp || 0) - (a.timestamp || 0)`:
`a` may be placed before `b` exactly when the comparator is `≤ 0`,
i.e. when `postKey b ≤ postKey a`. -/
def postLe (a b : Post) : Bool := postKey b ≤ postKey a

/-- The body of the `onSnapshot` success callback, applied to the documents in
the store's emission order: push into `fetchedPosts`, then sort with
`(a, b) => (b.timestamp || 0) - (a.timestamp || 0)` (stable per ECMAScript). -/
def handleSnapshot (docs : List Post) : List Post :=
  docs.mergeSort postLe

/-- The `onSnapshot` success callback as a state transition: `setPosts(fetchedPosts)`. -/
def onSnapshotEmit (s : AppState) (docs : List Post) : AppState :=
  { s with posts := handleSnapshot docs }

/-- The `onSnapshot` error callback: only
`console.error("Failed to fetch blog posts: ", error)`; no state other than
the log is touched. -/
def onSnapshotError (s : AppState) : AppState :=
  { s with errorLog := "Failed to fetch blog posts: " :: s.errorLog }

/-- One event delivered by the store to the live subscription. -/
inductive FeedEvent where
  | emit (docs : List Post)
  | error
  deriving Repr

/-- Run the subscription callbacks over a sequence of store events.
Per the store contract (spec §4.2/§6, Firestore `onSnapshot` semantics):
after the error callback fires the listener is closed and no further events
are delivered, so processing stops at the first `error`. -/
def runFeed (s : AppState) : List FeedEvent → AppState
  | [] => s
  | .emit docs :: rest => runFeed (onSnapshotEmit s docs) rest
  | .error :: _ => onSnapshotError s

/-- `createPost` from `src/app.js`, with `Date.now()` passed as `now` and the
resolution of the awaited `addDoc` call as `storeOk`.  Returns the state
after the call, the document written to the store (`none` when no write was
issued), and the outcome.  On validation failure (`!newPost.title ||
!newPost.content`) it logs and returns before touching the store; otherwise
`addDoc` is invoked with the draft's fields, fixed author and current
timestamp, and only on success does `setNewPost({ title: '', content: '' })`
run (a rejection jumps to the `catch`, which only logs). -/
def createPost (s : AppState) (now : Int) (storeOk : Bool) :
    AppState × Option NewDocFields × MutationResult :=
  if ¬ strTruthy s.newPost.title ∨ ¬ strTruthy s.newPost.content then
    ({ s with errorLog := "Title and content cannot be empty." :: s.errorLog },
     none, .validationError)
  else
    let fields : NewDocFields :=
      { title := s.newPost.title
        content := s.newPost.content
        author := "Murad Amin"
        timestamp := now }
    if storeOk then
      ({ s with newPost := { title := "", content := "" } }, some fields, .success)
    else
      ({ s with errorLog := "Error adding document: " :: s.errorLog },
       some fields, .storeError)

/-- `updatePost(postId)` from `src/app.js`.  The function dereferences
`editingPost.title`, so the embedding is defined on states with
`editingPost = some e` (the admin UI only invokes it then); a `none` state
would raise a `TypeError`, embedded as `none`.  On validation failure it
logs and returns before touching the store; otherwise `updateDoc` is invoked
with only `{ title, content }`, and only on success does
`setEditingPost(null)` run. The issued write is returned as the document id
together with the fields. -/
def updatePost (s : AppState) (postId : String) (storeOk : Bool) :
    Option (AppState × Option (String × UpdateFields) × MutationResult) :=
  match s.editingPost with
  | none => none
  | some e =>
    if ¬ strTruthy e.title ∨ ¬ strTruthy e.content then
      some ({ s with errorLog := "Title and content cannot be empty." :: s.errorLog },
            none, .validationError)
    else
      let fields : UpdateFields := { title := e.title, content := e.content }
      if storeOk then
        some ({ s with editingPost := none }, some (postId, fields), .success)
      else
        some ({ s with errorLog := "Error updating document: " :: s.errorLog },
              some (postId, fields), .storeError)

/-- Modelled from the spec (store contract §6): applying an `update(documentPath,
fields)` write to the stored document merges exactly the supplied fields —
here `title` and `content` — leaving every other field of the document as it
was. The store itself is an external collaborator, not code under `src/`. -/
def applyUpdateFields (p : Post) (f : UpdateFields) : Post :=
  { p with title := f.title, content := f.content }

/-- `deletePost` from `src/app.js`, with the resolution of the awaited
`deleteDoc` call as `storeOk`.  Returns the state after the call and the id
of the document whose deletion was issued (`none` when `postToDelete` was
null and the function returned immediately).  Note that
`setShowDeleteModal(false)` and `setPostToDelete(null)` sit inside the `try`
after `await deleteDoc(...)`: they run only when the delete resolves; a
rejection jumps to the `catch`, which only logs. -/
def deletePost (s : AppState) (storeOk : Bool) : AppState × Option String :=
  match s.postToDelete with
  | none => (s, none)
  | some p =>
    if storeOk then
      ({ s with showDeleteModal := false, postToDelete := none }, some p.id)
    else
      ({ s with errorLog := "Error deleting document: " :: s.errorLog }, some p.id)

/-- `showDeleteConfirmation(post)` from `src/app.js`. -/
def showDeleteConfirmation (s : AppState) (p : Post) : AppState :=
  { s with postToDelete := some p, showDeleteModal := true }

/-- The guard of the subscription `useEffect`:
`if (isAuthReady && userId && db)` — only then is
`onSnapshot(collection(db, postsCollectionPath), ...)` called.  The result is
the collection path subscribed to (`none`: no subscribe call issued).
`userId` is truthy exactly when it is a non-empty string; `db` is truthy when
the Firestore handle has been set. -/
def subscriptionEffect (isAuthReady : Bool) (userId : Option String)
    (dbReady : Bool) (appId : String) : Option String :=
  if isAuthReady && (match userId with | some u => strTruthy u | none => false) && dbReady then
    some ("artifacts/" ++ appId ++ "/users/" ++ userId.getD "" ++ "/blogPosts")
  else
    none

/-- The `onAuthStateChanged` callback: with a current user, publish its uid;
otherwise attempt `signInAnonymously` (its result, `some uid` on resolution
and `none` on rejection, is `anonResult`) and publish the uid on success or
log on failure.  Either way `setIsAuthReady(true)` runs at the end. -/
def onAuthStateChangedHandler (s : AppState) (user : Option String)
    (anonResult : Option String) : AppState :=
  match user with
  | some uid => { s with userId := some uid, isAuthReady := true }
  | none =>
    match anonResult with
    | some uid => { s with userId := some uid, isAuthReady := true }
    | none =>
      { s with errorLog := "Anonymous sign-in failed: " :: s.errorLog
               isAuthReady := true }

/-! Concrete sample documents and states, used to evaluate the embedded
operations on closed inputs. -/

/-- Sample document with timestamp 100 (scenario 4 of the spec). -/
def sampleA : Post := { id := "a", timestamp := some 100 }

/-- Sample document with timestamp 200 (scenario 4 of the spec). -/
def sampleB : Post := { id := "b", timestamp := some 200 }

/-- Sample document whose `timestamp` field is missing. -/
def sampleNoTs : Post := { id := "c" }

/-- Two sample documents sharing the timestamp 5. -/
def tieX : Post := { id := "x", timestamp := some 5 }

/-- Second sample document with timestamp 5. -/
def tieY : Post := { id := "y", timestamp := some 5 }

/-- A state holding a valid creation draft and a valid editing draft. -/
def validDraftState : AppState :=
  { initialState with
      newPost := { title := "Hi", content := "World" }
      editingPost := some { id := "a", title := "T2", content := "C2",
                            author := some "Murad Amin", timestamp := some 7 } }

/-- A state holding an empty-titled creation draft and an empty-titled
editing draft (scenario 3 of the spec). -/
def invalidDraftState : AppState :=
  { initialState with
      newPost := { title := "", content := "World" }
      editingPost := some { id := "a", title := "", content := "x" } }

/-- A state holding whitespace-only drafts. -/
def whitespaceDraftState : AppState :=
  { initialState with
      newPost := { title := " ", content := " " }
      editingPost := some { id := "a", title := " ", content := " " } }

/-- The state reached by requesting deletion of `sampleA` from the initial
state (`showDeleteConfirmation`). -/
def pendingDeleteState : AppState :=
  showDeleteConfirmation initialState sampleA

end App

/-! Theorems. -/

namespace App

/-- The comparator order `postLe` is transitive. -/
theorem postLe_trans (a b c : Post) (hab : postLe a b = true)
    (hbc : postLe b c = true) : postLe a c = true := by
  simp only [postLe, decide_eq_true_eq] at *
  exact le_trans hbc hab

/-- The comparator order `postLe` is total. -/
theorem postLe_total (a b : Post) : (postLe a b || postLe b a) = true := by
  simp only [postLe, Bool.or_eq_true, decide_eq_true_eq]
  exact le_total (postKey b) (postKey a)

/-- C1: every snapshot produced by the subscription handler is sorted in
descending order of `timestamp || 0` (a missing timestamp counting as 0),
and when the keys of the emitted documents are pairwise distinct the result
is strictly descending. -/
theorem snapshot_sorted_descending (docs : List Post) :
    (handleSnapshot docs).Pairwise (fun a b => postKey b ≤ postKey a) ∧
    (docs.Pairwise (fun a b => postKey a ≠ postKey b) →
      (handleSnapshot docs).Pairwise (fun a b => postKey b < postKey a)) := by
  have hsorted :
      (handleSnapshot docs).Pairwise (fun a b => postKey b ≤ postKey a) := by
    have := List.sorted_mergeSort postLe_trans postLe_total docs
    simpa only [postLe, decide_eq_true_eq, handleSnapshot] using this
  refine ⟨hsorted, fun hdist => ?_⟩
  have hperm : (handleSnapshot docs).Perm docs :=
    List.mergeSort_perm docs postLe
  have hne : (handleSnapshot docs).Pairwise (fun a b => postKey a ≠ postKey b) :=
    (hperm.pairwise_iff (fun h => Ne.symm h)).mpr hdist
  exact (hsorted.and hne).imp (fun h => lt_of_le_of_ne h.1 (Ne.symm h.2))

/-- Witness for C1 at the concrete emission `[a@100, b@200, c@missing]`. -/
theorem snapshot_sorted_descending_witness :
    (handleSnapshot [sampleA, sampleB, sampleNoTs]).Pairwise
      (fun a b => postKey b < postKey a) :=
  (snapshot_sorted_descending [sampleA, sampleB, sampleNoTs]).2 (by decide)

/-- C6: the sort is stable — two emitted documents with equal keys (equal
timestamps, or both missing) appear in the snapshot in the store's emission
order. -/
theorem snapshot_stable_on_ties (a b : Post) (docs : List Post)
    (hsub : List.Sublist [a, b] docs) (hkey : postKey a = postKey b) :
    List.Sublist [a, b] (handleSnapshot docs) := by
  refine List.sublist_mergeSort postLe_trans postLe_total ?_ hsub
  refine List.pairwise_cons.mpr ⟨?_, List.pairwise_singleton _ _⟩
  intro x hx
  rw [List.mem_singleton] at hx
  subst hx
  simp only [postLe, decide_eq_true_eq, hkey, le_refl]

/-- Witness for C6: the two tied documents `x@5`, `y@5` keep their emission
order in the snapshot of `[x, y, b@200]`. -/
theorem snapshot_stable_on_ties_witness :
    List.Sublist [tieX, tieY] (handleSnapshot [tieX, tieY, sampleB]) :=
  snapshot_stable_on_ties tieX tieY [tieX, tieY, sampleB] (by decide) (by decide)

end App

namespace App

/-- C2: a draft with empty title or empty content makes both `createPost` and
`updatePost` log a validation error and return without issuing any store
write; the draft state (`newPost` / `editingPost`) and the post list are
left unchanged. -/
theorem empty_draft_never_reaches_store (s : AppState) (now : Int)
    (storeOk : Bool) (postId : String) (e : Post)
    (hcreate : s.newPost.title = "" ∨ s.newPost.content = "")
    (hedit : s.editingPost = some e)
    (hupdate : e.title = "" ∨ e.content = "") :
    ((createPost s now storeOk).2.1 = none ∧
     (createPost s now storeOk).2.2 = MutationResult.validationError ∧
     (createPost s now storeOk).1.newPost = s.newPost ∧
     (createPost s now storeOk).1.posts = s.posts) ∧
    (∃ s₁, updatePost s postId storeOk =
        some (s₁, none, MutationResult.validationError) ∧
      s₁.editingPost = s.editingPost ∧ s₁.posts = s.posts) := by
  constructor
  · rcases hcreate with h | h <;> simp [createPost, strTruthy, h]
  · refine ⟨{ s with errorLog := "Title and content cannot be empty." :: s.errorLog },
      ?_, rfl, rfl⟩
    rcases hupdate with h | h <;> simp [updatePost, hedit, strTruthy, h]

/-- Witness for C2 at the concrete state whose creation draft has an empty
title and whose editing draft has an empty title. -/
theorem empty_draft_never_reaches_store_witness :
    ((createPost invalidDraftState 0 true).2.1 = none ∧
     (createPost invalidDraftState 0 true).2.2 = MutationResult.validationError ∧
     (createPost invalidDraftState 0 true).1.newPost = invalidDraftState.newPost ∧
     (createPost invalidDraftState 0 true).1.posts = invalidDraftState.posts) ∧
    (∃ s₁, updatePost invalidDraftState "a" true =
        some (s₁, none, MutationResult.validationError) ∧
      s₁.editingPost = invalidDraftState.editingPost ∧
      s₁.posts = invalidDraftState.posts) :=
  empty_draft_never_reaches_store invalidDraftState 0 true "a"
    { id := "a", title := "", content := "x" }
    (Or.inl rfl) rfl (Or.inl rfl)

/-- C3 counterexample: from the concrete state holding a pending deletion of
document "a", a rejecting `deleteDoc` call leaves `postToDelete` set and
the confirmation prompt open — the resets sit inside the `try` after the
`await`, so they are skipped on failure, refuting "reset to none ...
regardless of whether the store's delete call succeeds or fails". -/
theorem delete_failure_keeps_pending :
    (deletePost pendingDeleteState false).2 = some "a" ∧
    (deletePost pendingDeleteState false).1.postToDelete = some sampleA ∧
    (deletePost pendingDeleteState false).1.showDeleteModal = true := by
  decide

/-- C3 amended: a confirmed deletion always issues the delete mutation to
the store; when the call succeeds, `postToDelete` resets to none and the
prompt closes, while on failure an error is logged and `postToDelete` and
the prompt are left unchanged. -/
theorem delete_confirmed_behavior (s : AppState) (p : Post) (storeOk : Bool)
    (h : s.postToDelete = some p) :
    (deletePost s storeOk).2 = some p.id ∧
    (storeOk = true →
      (deletePost s storeOk).1.postToDelete = none ∧
      (deletePost s storeOk).1.showDeleteModal = false) ∧
    (storeOk = false →
      (deletePost s storeOk).1.postToDelete = some p ∧
      (deletePost s storeOk).1.showDeleteModal = s.showDeleteModal) := by
  cases storeOk <;> simp [deletePost, h]

/-- Witness for the amended C3 at the concrete pending-deletion state with a
succeeding store call. -/
theorem delete_confirmed_behavior_witness :
    (deletePost pendingDeleteState true).2 = some "a" ∧
    (deletePost pendingDeleteState true).1.postToDelete = none ∧
    (deletePost pendingDeleteState true).1.showDeleteModal = false :=
  ⟨(delete_confirmed_behavior pendingDeleteState sampleA true rfl).1,
   ((delete_confirmed_behavior pendingDeleteState sampleA true rfl).2.1 rfl).1,
   ((delete_confirmed_behavior pendingDeleteState sampleA true rfl).2.1 rfl).2⟩

/-- C4: for a valid editing draft, `updatePost` issues a write containing
exactly the draft's title and content fields; merging such a write into any
stored document (the store contract for `update`) leaves the document's
timestamp, author and id unchanged. -/
theorem update_touches_only_title_content (s : AppState) (postId : String)
    (storeOk : Bool) (e : Post) (hedit : s.editingPost = some e)
    (ht : e.title ≠ "") (hc : e.content ≠ "") :
    (∃ s₁ r, updatePost s postId storeOk =
        some (s₁, some (postId, { title := e.title, content := e.content }), r)) ∧
    (∀ (p : Post) (f : UpdateFields),
      (applyUpdateFields p f).timestamp = p.timestamp ∧
      (applyUpdateFields p f).author = p.author ∧
      (applyUpdateFields p f).id = p.id) := by
  constructor
  · cases storeOk with
    | false =>
      exact ⟨{ s with errorLog := "Error updating document: " :: s.errorLog },
        MutationResult.storeError, by simp [updatePost, hedit, strTruthy, ht, hc]⟩
    | true =>
      exact ⟨{ s with editingPost := none },
        MutationResult.success, by simp [updatePost, hedit, strTruthy, ht, hc]⟩
  · intro p f
    exact ⟨rfl, rfl, rfl⟩

/-- Witness for C4 at the concrete valid editing draft. -/
theorem update_touches_only_title_content_witness :
    (∃ s₁ r, updatePost validDraftState "a" true =
        some (s₁, some ("a", { title := "T2", content := "C2" }), r)) ∧
    (∀ (p : Post) (f : UpdateFields),
      (applyUpdateFields p f).timestamp = p.timestamp ∧
      (applyUpdateFields p f).author = p.author ∧
      (applyUpdateFields p f).id = p.id) :=
  update_touches_only_title_content validDraftState "a" true
    { id := "a", title := "T2", content := "C2",
      author := some "Murad Amin", timestamp := some 7 }
    rfl (by decide) (by decide)

/-- C5: with non-empty title and content, `createPost` writes to the store a
document carrying exactly the draft's title and content, author fixed to
"Murad Amin" and timestamp equal to the call time, and on success the draft
resets to the empty draft. -/
theorem create_writes_fixed_author_and_now (s : AppState) (now : Int)
    (ht : s.newPost.title ≠ "") (hc : s.newPost.content ≠ "") :
    (createPost s now true).2.1 =
      some { title := s.newPost.title, content := s.newPost.content,
             author := "Murad Amin", timestamp := now } ∧
    (createPost s now true).2.2 = MutationResult.success ∧
    (createPost s now true).1.newPost = { title := "", content := "" } := by
  simp [createPost, strTruthy, ht, hc]

/-- Witness for C5 at the concrete draft `{title: "Hi", content: "World"}`
(scenario 2 of the spec), called at time 1000. -/
theorem create_writes_fixed_author_and_now_witness :
    (createPost validDraftState 1000 true).2.1 =
      some { title := "Hi", content := "World",
             author := "Murad Amin", timestamp := 1000 } ∧
    (createPost validDraftState 1000 true).2.2 = MutationResult.success ∧
    (createPost validDraftState 1000 true).1.newPost =
      { title := "", content := "" } :=
  create_writes_fixed_author_and_now validDraftState 1000 (by decide) (by decide)

end App

namespace App

/-- C7: `createPost` never mutates the local snapshot — the posts list after
the call (whatever the validation or store outcome) equals the posts list
before it, and it changes only when the next store emission is processed by
the subscription handler, which replaces it wholesale. -/
theorem create_no_local_echo (s : AppState) (now : Int) (storeOk : Bool)
    (docs : List Post) :
    (createPost s now storeOk).1.posts = s.posts ∧
    (onSnapshotEmit (createPost s now storeOk).1 docs).posts =
      handleSnapshot docs := by
  refine ⟨?_, rfl⟩
  unfold createPost
  split
  · rfl
  · split <;> rfl

/-- C8: when the live subscription reports a store error after holding
snapshot `S`, the error is surfaced (logged), the local snapshot remains
`S`, and the subscription is closed — the whole run collapses to the error
callback alone, ignoring any later events. -/
theorem feed_error_keeps_snapshot (s : AppState) (rest : List FeedEvent) :
    (runFeed s (FeedEvent.error :: rest)).posts = s.posts ∧
    (runFeed s (FeedEvent.error :: rest)).errorLog =
      "Failed to fetch blog posts: " :: s.errorLog ∧
    runFeed s (FeedEvent.error :: rest) = onSnapshotError s :=
  ⟨rfl, rfl, rfl⟩

/-- C9: the subscription effect issues no subscribe call whenever
authentication has not resolved to a non-null identity (`isAuthReady` false
or `userId` null); moreover when anonymous sign-in fails, the
`onAuthStateChanged` handler leaves `userId` null, so no subscription can
open afterwards either. -/
theorem no_subscribe_without_identity (isAuthReady : Bool)
    (userId : Option String) (dbReady : Bool) (appId : String)
    (s : AppState) (h : isAuthReady = false ∨ userId = none)
    (hs : s.userId = none) :
    subscriptionEffect isAuthReady userId dbReady appId = none ∧
    (onAuthStateChangedHandler s none none).userId = none ∧
    subscriptionEffect (onAuthStateChangedHandler s none none).isAuthReady
      (onAuthStateChangedHandler s none none).userId dbReady appId = none := by
  refine ⟨?_, ?_, ?_⟩
  · rcases h with h | h <;> simp [subscriptionEffect, h]
  · simpa [onAuthStateChangedHandler] using hs
  · simp [onAuthStateChangedHandler, subscriptionEffect, hs]

/-- Witness for C9 at the not-yet-ready concrete inputs and the initial
state. -/
theorem no_subscribe_without_identity_witness :
    subscriptionEffect false none true "default-app-id" = none ∧
    (onAuthStateChangedHandler initialState none none).userId = none ∧
    subscriptionEffect
      (onAuthStateChangedHandler initialState none none).isAuthReady
      (onAuthStateChangedHandler initialState none none).userId
      true "default-app-id" = none :=
  no_subscribe_without_identity false none true "default-app-id" initialState
    (Or.inl rfl) rfl

/-- C10: validation only checks truthiness — any draft whose title and
content are non-empty strings, including whitespace-only strings, passes
validation in both `createPost` and `updatePost`, and the store write is
issued with those exact strings. -/
theorem whitespace_passes_validation (s : AppState) (now : Int)
    (storeOk : Bool) (postId : String) (e : Post)
    (ht : s.newPost.title ≠ "") (hc : s.newPost.content ≠ "")
    (hedit : s.editingPost = some e) (het : e.title ≠ "") (hec : e.content ≠ "") :
    (createPost s now storeOk).2.1 =
      some { title := s.newPost.title, content := s.newPost.content,
             author := "Murad Amin", timestamp := now } ∧
    (createPost s now storeOk).2.2 ≠ MutationResult.validationError ∧
    (∃ s₁ r, updatePost s postId storeOk =
        some (s₁, some (postId, { title := e.title, content := e.content }), r) ∧
      r ≠ MutationResult.validationError) := by
  refine ⟨?_, ?_, ?_⟩
  · cases storeOk <;> simp [createPost, strTruthy, ht, hc]
  · cases storeOk <;> simp [createPost, strTruthy, ht, hc]
  · cases storeOk with
    | false =>
      exact ⟨{ s with errorLog := "Error updating document: " :: s.errorLog },
        MutationResult.storeError,
        by simp [updatePost, hedit, strTruthy, het, hec], by simp⟩
    | true =>
      exact ⟨{ s with editingPost := none }, MutationResult.success,
        by simp [updatePost, hedit, strTruthy, het, hec], by simp⟩

/-- Witness for C10 at the concrete whitespace-only drafts: a single-space
title and content pass validation and are written as-is. -/
theorem whitespace_passes_validation_witness :
    (createPost whitespaceDraftState 0 true).2.1 =
      some { title := " ", content := " ",
             author := "Murad Amin", timestamp := 0 } ∧
    (createPost whitespaceDraftState 0 true).2.2 ≠
      MutationResult.validationError ∧
    (∃ s₁ r, updatePost whitespaceDraftState "a" true =
        some (s₁, some ("a", { title := " ", content := " " }), r) ∧
      r ≠ MutationResult.validationError) :=
  whitespace_passes_validation whitespaceDraftState 0 true "a"
    { id := "a", title := " ", content := " " }
    (by decide) (by decide) rfl (by decide) (by decide)

end App
